import Mathlib

/-!
# Verification of the conversation/tool-orchestration core of `claude-engineer`

Shallow embedding of the Python sources under `src/` (chat_manager.py,
conversation.py, claude_client.py, file_operations.py, token_tracker.py,
code_execution.py) and proofs about the frozen claims C1-C10.

Python dictionaries are embedded as association lists over a JSON-like
value type, strings as `String`, and fallible calls as `Except String`.
Machine effects (filesystem reads/writes, subprocess spawns) are made
explicit as event logs threaded through the state.
-/

namespace ClaudeEngineer

/-- JSON-like values: the shape of Python data moved between the
orchestraton core, the tools and the model transport.  Dictionaries are
association lists in insertion order, as built by the source. -/
inductive JValue where
  | str (s : String)
  | bool (b : Bool)
  | list (items : List JValue)
  | dict (fields : List (String × JValue))

/-- Python truthiness for the embedded values (`if x:` / `any(...)`). -/
def JValue.truthy : JValue → Bool
  | .str s => s ≠ ""
  | .bool b => b
  | .list items => !items.isEmpty
  | .dict fields => !fields.isEmpty

/-- `d.get(k)` on an embedded dictionary: first binding wins, `None`
when the key is absent. -/
def jGet (fields : List (String × JValue)) (k : String) : Option JValue :=
  fields.lookup k

/-- `d.get(k, default)` on an embedded dictionary. -/
def jGetD (fields : List (String × JValue)) (k : String) (dflt : JValue) : JValue :=
  (fields.lookup k).getD dflt

/-- Occurrence of `needle` as a contiguous run inside `haystack`, over
character lists (an empty needle always occurs). -/
def containsSub (needle : List Char) : List Char → Bool
  | [] => needle.isEmpty
  | c :: rest => needle.isPrefixOf (c :: rest) || containsSub needle rest

/-- Python's substring test `needle in haystack` on strings. -/
def strContains (haystack needle : String) : Bool :=
  containsSub needle.data haystack.data

/-- Python's `s.startswith(t)`. -/
def pyStartsWith (s t : String) : Bool :=
  t.data.isPrefixOf s.data

/-- Python's `s.endswith(t)`. -/
def pyEndsWith (s t : String) : Bool :=
  t.data.isSuffixOf s.data

/-- ASCII lowering of one character.  Python's `str.lower()` also folds
non-ASCII letters, but every string it is compared against in this
repository (the fixed retry phrases) is ASCII, for which this agrees. -/
def charLower (c : Char) : Char :=
  if 'A' ≤ c && c ≤ 'Z' then Char.ofNat (c.toNat + 32) else c

/-- Python's `s.lower()` (ASCII). -/
def pyLower (s : String) : String :=
  ⟨s.data.map charLower⟩

/-- Message roles.  Throughout the repository the `role` field of a
message dictionary is exactly one of the strings `"user"` and
`"assistant"` (conversation.py `add_message` call sites, the synthetic
placeholder in `ensure_alternating_roles`, and the tool-use / tool-result
messages built in `chat_with_claude`). -/
inductive Role where
  | user
  | assistant
deriving Repr, DecidableEq

/-- A conversation message `{"role": ..., "content": ...}`.  The content
is either a plain string or a list of typed blocks, both covered by
`JValue`. -/
structure Message where
  role : Role
  content : JValue

/-- `d.get(k) == s`: Python equality of a looked-up value with a string
literal (a missing key or a non-string value is never equal). -/
def jEqStr (v : Option JValue) (s : String) : Bool :=
  match v with
  | some (.str t) => t == s
  | _ => false

/-! ## `ensure_alternating_roles`
(models/claude_client.py lines 49-62; the copy in chat/chat_manager.py
lines 368-383 is textually identical). -/

/-- The synthetic placeholder message inserted before a repeated user
message. -/
def continuingPlaceholder : Message :=
  { role := .assistant, content := .str "Continuing the conversation..." }

/-- The loop body of `ensure_alternating_roles`: `last` is the running
`last_role` variable (`None` initially).  A message whose role differs
from `last_role` is appended; a repeated user message is preceded by the
placeholder; a repeated assistant message is skipped. -/
def ensureAlternatingRolesGo (last : Option Role) : List Message → List Message
  | [] => []
  | m :: rest =>
    if some m.role ≠ last then
      m :: ensureAlternatingRolesGo (some m.role) rest
    else if m.role = Role.user then
      continuingPlaceholder :: m :: ensureAlternatingRolesGo (some Role.user) rest
    else
      ensureAlternatingRolesGo last rest

/-- `ClaudeClient.ensure_alternating_roles` /
`ChatManager.ensure_alternating_roles`. -/
def ensureAlternatingRoles (messages : List Message) : List Message :=
  ensureAlternatingRolesGo none messages

/-! ## `Conversation.filter_history` (chat/conversation.py lines 14-34). -/

/-- The three fixed "already in context" markers of
`Conversation.filter_history`. -/
def contextMarkers : List String :=
  ["File contents updated in system prompt",
   "File created and added to system prompt",
   "has been read and stored in the system prompt"]

/-- The per-block keep condition of `filter_history`:
`content.get('type') != 'tool_result' or (content.get('type') ==
'tool_result' and not any(keyword in content.get('output', '') ...))`.
Note that the marker scan reads the key `'output'`, with `''` as the
default when the key is absent.  Blocks in this repository are always
dictionaries; on a dictionary block `get` is an association-list lookup. -/
def keepBlock (b : JValue) : Bool :=
  let fields := match b with
    | .dict fs => fs
    | _ => []
  let output := match jGet fields "output" with
    | some (.str s) => s
    | _ => ""
  !(jEqStr (jGet fields "type") "tool_result") ||
    (jEqStr (jGet fields "type") "tool_result" &&
      !(contextMarkers.any fun keyword => strContains output keyword))

/-- `Conversation.filter_history`: list-content messages keep only the
blocks passing `keepBlock` and are dropped entirely when no block
remains; non-list content passes through unchanged. -/
def filterHistory : List Message → List Message
  | [] => []
  | m :: rest =>
    match m.content with
    | .list blocks =>
      let filteredContent := blocks.filter keepBlock
      if filteredContent.isEmpty then
        filterHistory rest
      else
        { m with content := .list filteredContent } :: filterHistory rest
    | _ => m :: filterHistory rest

/-! ## `ChatManager.decide_retry` (chat/chat_manager.py lines 331-361).

chat_manager.py imports `asyncio`, `os`, `json` and `traceback` (plus
`rich` and the local project modules) and never imports `re`; the call
`re.findall(...)` on line 350 therefore raises
`NameError: name 're' is not defined` whenever the retry branch is
entered. -/

/-- A per-file edit result as a Python dictionary. -/
abbrev EditResultDict := List (String × JValue)

/-- The structured decision of `decide_retry`. -/
structure RetryDecision where
  retry : Bool
  files_to_retry : List String
deriving Repr, DecidableEq

/-- The fixed retry-signaling phrases of `decide_retry`. -/
def retryPhrases : List String :=
  ["need to retry",
   "should try again",
   "another attempt is necessary",
   "errors that need addressing",
   "requires further editing"]

/-- `errors_present = any(result.get("is_error", False) for result in
edit_results)`. -/
def errorsPresent (edit_results : List EditResultDict) : Bool :=
  edit_results.any fun r => (jGetD r "is_error" (.bool false)).truthy

/-- `ChatManager.decide_retry`.  When neither trigger fires the function
returns `{retry: False, files_to_retry: []}`.  When a trigger fires, the
source sets `retry_decision["retry"] = True` and then evaluates
`re.findall(...)`, which raises `NameError` because chat_manager.py does
not import `re`; the embedded function surfaces that exception. -/
def decide_retry (tool_checker_response : String)
    (edit_results : List EditResultDict) : Except String RetryDecision :=
  if errorsPresent edit_results ||
      retryPhrases.any (fun phrase => strContains (pyLower tool_checker_response) phrase) then
    .error "NameError: name re is not defined"
  else
    .ok { retry := false, files_to_retry := [] }

/-! ## `FileOperations.edit_and_apply_multiple`
(tools/file_operations.py lines 42-76).

The filesystem is embedded as a partial map from the literal path string
handed to `open` to file contents, together with an explicit event log of
reads and writes.  The two external calls made per file —
`claude_client.generate_edit_instructions` (a model round trip; in this
repository `FileOperations.__init__` never sets `self.claude_client`, so
the call raises `AttributeError`, which the `Except` parameter covers)
and `apply_edits` (regex-driven SEARCH/REPLACE string rewriting whose
internals no claim depends on) — are abstract parameters, so every
theorem below holds for their concrete behaviors as well. -/

/-- POSIX `os.path.join a b`: an absolute second component replaces the
first, otherwise the components are joined with a single separator.
Crucially, `os.path.join` performs no normalization: `"."` and `".."`
segments are kept verbatim in the result. -/
def osPathJoin (a b : String) : String :=
  if pyStartsWith b "/" then b
  else if pyEndsWith a "/" then a ++ b
  else a ++ "/" ++ b

/-- `os.path.join(os.getcwd(), '_generations')`: the sandbox root
directory. -/
def generationsDir (cwd : String) : String :=
  osPathJoin cwd "_generations"

/-- Splitting a path on `'/'`, keeping empty segments, as Python's
`p.split('/')` would. -/
def splitOnSlashAux : List Char → List Char → List String
  | [], acc => [String.mk acc.reverse]
  | c :: rest, acc =>
    if c = '/' then String.mk acc.reverse :: splitOnSlashAux rest []
    else splitOnSlashAux rest (c :: acc)

/-- See `splitOnSlashAux`. -/
def splitOnSlash (s : String) : List String :=
  splitOnSlashAux s.data []

/-- One step of filesystem path resolution: empty and `"."` segments
vanish, `".."` removes the previous segment, anything else is kept. -/
def resolveStep (acc : List String) (seg : String) : List String :=
  if seg = "" || seg = "." then acc
  else if seg = ".." then acc.dropLast
  else acc ++ [seg]

/-- Modelled from the spec: the directory the operating system actually
resolves an absolute path to ("a requested edit path *resolving* outside
the sandbox root"), i.e. the path with `"."` and `".."` segments
collapsed, as segment list.  The source never computes this; it is the
spec-side notion the `startswith` check of the source is compared
against. -/
def resolvePath (p : String) : List String :=
  (splitOnSlash p).foldl resolveStep []

/-- Modelled from the spec: an absolute path resolves outside a root
directory when its resolved segment list does not extend the resolved
segment list of the root. -/
def resolvesOutside (root p : String) : Bool :=
  !((resolvePath root).isPrefixOf (resolvePath p))

/-- A requested edit: the dictionary `{'path': ..., 'instructions': ...}`
supplied by the model for one file. -/
structure EditFile where
  path : String
  instructions : String

/-- A filesystem access performed by a tool. -/
inductive FileEvent where
  | read (path : String)
  | write (path : String)
deriving Repr, DecidableEq

/-- The mutable state threaded through `edit_and_apply_multiple`: the
filesystem as seen by `open`, the `self.file_contents` cache, and the
log of filesystem accesses in order. -/
structure EditState where
  fs : String → Option String
  file_contents : List (String × String)
  events : List FileEvent

/-- The external collaborators of `edit_and_apply_multiple`:
`os.getcwd()`, the model round trip
`claude_client.generate_edit_instructions(relative_path,
current_content, instructions, project_context, file_contents)` and the
string rewriter `apply_edits(current_content, edit_instructions)`. -/
structure EditEnv where
  cwd : String
  genEdit : String → String → String → String → Except String String
  applyEdits : String → String → String

/-- The success dictionary appended for one file. -/
def editOkResult (p : String) : EditResultDict :=
  [("path", .str p), ("status", .str "success"),
   ("message", .str "File edited successfully")]

/-- The failure dictionary appended for one file (the `except` clause;
`message` is `str(e)`). -/
def editErrResult (p msg : String) : EditResultDict :=
  [("path", .str p), ("status", .str "error"), ("message", .str msg)]

/-- The body of the `for file in files` loop of
`edit_and_apply_multiple` for one file: the `startswith` sandbox check,
the read of `full_path`, the model call, the rewrite, and the
write-back, with every exception converted into an error result for this
file. -/
def processEditFile (env : EditEnv) (project_context : String)
    (st : EditState) (file : EditFile) : EditState × EditResultDict :=
  let relative_path := file.path
  let full_path := osPathJoin (generationsDir env.cwd) relative_path
  let instructions := file.instructions
  if !(pyStartsWith full_path (generationsDir env.cwd)) then
    -- `raise ValueError(f"File {relative_path} is not within the _generations directory")`
    (st, editErrResult relative_path
      ("File " ++ relative_path ++ " is not within the _generations directory"))
  else
    -- `with open(full_path, 'r') as f: current_content = f.read()`
    let st : EditState := { st with events := st.events ++ [FileEvent.read full_path] }
    match st.fs full_path with
    | none =>
      (st, editErrResult relative_path
        ("No such file or directory: " ++ full_path))
    | some current_content =>
      match env.genEdit relative_path current_content instructions project_context with
      | .error e => (st, editErrResult relative_path e)
      | .ok edit_instructions =>
        let new_content := env.applyEdits current_content edit_instructions
        -- `with open(full_path, 'w') as f: f.write(new_content)`
        let st : EditState :=
          { fs := fun p => if p = full_path then some new_content else st.fs p,
            file_contents := (full_path, new_content) :: st.file_contents,
            events := st.events ++ [FileEvent.write full_path] }
        (st, editOkResult relative_path)

/-- `FileOperations.edit_and_apply_multiple`: the per-file loop,
accumulating results in order. -/
def editAndApplyMultiple (env : EditEnv) (project_context : String) (st : EditState) :
    List EditFile → EditState × List EditResultDict
  | [] => (st, [])
  | file :: rest =>
    let (st, result) := processEditFile env project_context st file
    let (st, results) := editAndApplyMultiple env project_context st rest
    (st, result :: results)

/-! ## `ChatManager.handle_automode` (chat/chat_manager.py lines 96-144).

The loop body (lines 110-134) is embedded with the orchestrator as an
abstract parameter mapping the index of the call (0-based, in call
order) to either an exception or the pair
`(response, exit_continuation)` returned by `chat_with_claude`.  Console
output is tracked as booleans recording which terminal messages were
displayed.  The `while` loop is modelled with fuel; the `break` of the
error-budget branch is modelled by setting `automode := false` so the
next loop-condition check exits, which is observationally the same. -/

/-- The loop state of `handle_automode` plus the record of which
terminal messages have been displayed and how many orchestrator calls
were made. -/
structure AutomodeState where
  automode : Bool
  iteration_count : Nat
  error_count : Nat
  calls : Nat
  completedDisplayed : Bool
  maxIterationsDisplayed : Bool
  errorBudgetDisplayed : Bool
  outOfFuel : Bool
deriving Repr, DecidableEq

/-- The state at loop entry (`iteration_count = 0`, `error_count = 0`,
`self.automode = True`). -/
def automodeStart : AutomodeState :=
  { automode := true, iteration_count := 0, error_count := 0, calls := 0,
    completedDisplayed := false, maxIterationsDisplayed := false,
    errorBudgetDisplayed := false, outOfFuel := false }

/-- `max_errors = 3` (chat/chat_manager.py line 108). -/
def maxErrors : Nat := 3

/-- The `while self.automode and iteration_count < max_iterations` loop
of `handle_automode`.  `orch k` is the outcome of the `(k+1)`-th
`chat_with_claude` call; `exitPhrase` is
`config.CONTINUATION_EXIT_PHRASE`. -/
def automodeLoop (orch : Nat → Except String (String × Bool))
    (exitPhrase : String) (maxIterations : Nat) :
    Nat → AutomodeState → AutomodeState
  | 0, s => { s with outOfFuel := true }
  | fuel + 1, s =>
    if s.automode && decide (s.iteration_count < maxIterations) then
      match orch s.calls with
      | .error _ =>
        -- `except Exception as e:` — display the error, bump the counter
        let s := { s with error_count := s.error_count + 1, calls := s.calls + 1 }
        if maxErrors ≤ s.error_count then
          -- `display_error(...); self.automode = False; break`
          automodeLoop orch exitPhrase maxIterations fuel
            { s with errorBudgetDisplayed := true, automode := false }
        else
          -- `continue` (note: `iteration_count` is not incremented)
          automodeLoop orch exitPhrase maxIterations fuel s
      | .ok (response, exit_continuation) =>
        let s := { s with error_count := 0, calls := s.calls + 1 }
        let s :=
          if exit_continuation || strContains response exitPhrase then
            -- `display_success("Automode completed."); self.automode = False`
            { s with completedDisplayed := true, automode := false }
          else s
        let s := { s with iteration_count := s.iteration_count + 1 }
        let s :=
          if maxIterations ≤ s.iteration_count then
            -- `display_error("Max iterations reached. ..."); self.automode = False`
            { s with maxIterationsDisplayed := true, automode := false }
          else s
        automodeLoop orch exitPhrase maxIterations fuel s
    else s

/-- `handle_automode`, from loop entry: run the loop on the start
state. -/
def handleAutomode (orch : Nat → Except String (String × Bool))
    (exitPhrase : String) (maxIterations fuel : Nat) : AutomodeState :=
  automodeLoop orch exitPhrase maxIterations fuel automodeStart

/-! ## `ChatManager.reset_conversation` (chat/chat_manager.py lines
67-76) and the states it is meant to clear.

`reset_conversation` runs, in order: `self.conversation.reset()`,
`self.token_tracker.reset()`, `self.file_ops.reset_file_contents()`,
`self.claude_client.reset_code_editor_memory()`,
`self.code_executor.reset()`.  Python resolves each call by attribute
lookup on the receiving object; a name not defined on the class raises
`AttributeError`. -/

/-- One row of `TokenTracker.token_usage`. -/
structure TokenLedgerEntry where
  input : Nat
  output : Nat
deriving Repr, DecidableEq

/-- The session state touched by `reset_conversation`:
`Conversation.history` and `Conversation.file_contents`
(conversation.py), `TokenTracker.token_usage` (token_tracker.py),
`FileOperations.file_contents` (file_operations.py), and
`ClaudeClient.code_editor_memory` / `code_editor_files`
(claude_client.py). -/
structure SessionState where
  history : List Message
  convFileContents : List (String × String)
  tokenUsage : List (String × TokenLedgerEntry)
  fileOpsContents : List (String × String)
  codeEditorMemory : List String
  codeEditorFiles : List String

/-- The methods defined on `TokenTracker` (utils/token_tracker.py):
there is a `reset_token_usage` but no method named `reset`. -/
def tokenTrackerMethods : List String :=
  ["update_token_usage", "get_total_tokens", "calculate_cost",
   "display_token_usage", "reset_token_usage", "update_cost_per_1k_tokens"]

/-- The methods defined on `CodeExecutor` (tools/code_execution.py):
there is a `cleanup` but no method named `reset`. -/
def codeExecutorMethods : List String :=
  ["setup_virtual_environment", "execute_code", "analyze_code_execution",
   "stop_process", "install_package", "list_installed_packages", "cleanup"]

/-- `ChatManager.reset_conversation`, returning the session state at the
point the call finishes or aborts, together with the exception raised,
if any.  `conversation.reset()` exists and clears history and the
conversation file cache; the subsequent `token_tracker.reset()` resolves
against the methods actually defined on `TokenTracker`. -/
def resetConversation (s : SessionState) : SessionState × Option String :=
  -- `self.conversation.reset()`
  let s : SessionState := { s with history := [], convFileContents := [] }
  -- `self.token_tracker.reset()`
  if tokenTrackerMethods.contains "reset" then
    -- (only reachable if `TokenTracker` had a `reset` method clearing the ledger)
    let s : SessionState := { s with tokenUsage := [] }
    -- `self.file_ops.reset_file_contents()`
    let s : SessionState := { s with fileOpsContents := [] }
    -- `self.claude_client.reset_code_editor_memory()`
    let s : SessionState := { s with codeEditorMemory := [], codeEditorFiles := [] }
    -- `self.code_executor.reset()`
    if codeExecutorMethods.contains "reset" then (s, none)
    else (s, some "AttributeError: CodeExecutor object has no attribute reset")
  else (s, some "AttributeError: TokenTracker object has no attribute reset")

/-! ## `ChatManager.chat_with_claude` (chat/chat_manager.py lines 150-308).

The model transport is abstract: `mainCall` is the outcome of the step-3
`generate_response` call, and `followUp k` the outcome of the follow-up
`generate_response` call made for the `(k+1)`-th tool use of the turn.
Tool execution (lines 226-231: the `create_files` and `tavily_search`
special cases and the generic `execute_tool`, which wraps every handler
exception into an error envelope and never raises) is the abstract
`execTool`, and every invocation of it is logged in call order.
`json.dumps` is the abstract serializer `dumps`.  Console display and
token-ledger updates are output-only and not modelled. -/

/-- A content block of a model response: text, or a structured tool
call. -/
inductive ContentBlock where
  | text (s : String)
  | toolUse (id name : String) (input : JValue)

/-- A model response (the `usage` counters are not needed by any
claim). -/
structure ModelResponse where
  content : List ContentBlock

/-- A tool call extracted from the response. -/
structure ToolUseBlock where
  id : String
  name : String
  input : JValue

/-- `"".join`-style concatenation of the text blocks of a response
(`assistant_response += content_block.text`). -/
def concatTexts : List ContentBlock → String
  | [] => ""
  | .text s :: rest => s ++ concatTexts rest
  | .toolUse _ _ _ :: rest => concatTexts rest

/-- Whether some text block of the response contains the continuation
exit phrase (`if self.config.CONTINUATION_EXIT_PHRASE in
content_block.text`). -/
def anyTextContains (phrase : String) : List ContentBlock → Bool
  | [] => false
  | .text s :: rest => strContains s phrase || anyTextContains phrase rest
  | .toolUse _ _ _ :: rest => anyTextContains phrase rest

/-- The tool-use blocks of the response, in order. -/
def toolUsesOf : List ContentBlock → List ToolUseBlock
  | [] => []
  | .text _ :: rest => toolUsesOf rest
  | .toolUse i n inp :: rest => ⟨i, n, inp⟩ :: toolUsesOf rest

/-- `str(tool_result)` / `json.dumps(tool_result)` as selected on line
253: dictionaries and lists are serialized with the abstract `dumps`,
plain values with Python `str`. -/
def toolResultText (dumps : JValue → String) : JValue → String
  | .dict fs => dumps (.dict fs)
  | .list items => dumps (.list items)
  | .str s => s
  | .bool b => if b then "True" else "False"

/-- `decide_retry` as invoked by the orchestrator on the raw tool result
(line 285): the source iterates `edit_results` and reads each element
with `result.get(...)`.  For the list-of-dictionaries shape the edit
tool produces this is `decide_retry`; iterating any other shape fails on
`result.get` with an exception before further effects, surfaced as an
error here. -/
def decideRetryOnValue (tool_checker_response : String) (tool_result : JValue) :
    Except String RetryDecision :=
  match tool_result with
  | .list items =>
    if items.all (fun v => match v with | .dict _ => true | _ => false) then
      decide_retry tool_checker_response
        (items.filterMap fun v => match v with | .dict fs => some fs | _ => none)
    else .error "AttributeError: object has no attribute get"
  | _ => .error "TypeError: edit_results is not a list of dictionaries"

/-- The external collaborators of one `chat_with_claude` turn. -/
structure ChatEnv where
  cwd : String
  exitPhrase : String
  mainCall : Except String ModelResponse
  followUp : Nat → Except String ModelResponse
  execTool : String → JValue → JValue
  dumps : JValue → String
  retryEdit : JValue → List String → JValue × String

/-- The turn-local state threaded through the tool loop:
`assistant_response`, the `messages` local variable, the
`current_conversation` buffer, the `file_ops.file_contents` cache (line
268 stores the tool *name* as the path and the tool *input* as the
content — `update_file_contents(tool_name, tool_input)` against the
signature `update_file_contents(file_path, content)`), and the log of
tool executions. -/
structure TurnState where
  assistant_response : String
  messages : List Message
  current_conversation : List Message
  fileOpsContents : List (String × JValue)
  executed : List (String × JValue)

/-- The `tool_use` assistant message appended on lines 239-249. -/
def toolUseMessage (tu : ToolUseBlock) : Message :=
  { role := .assistant,
    content := .list [.dict [("type", .str "tool_use"), ("id", .str tu.id),
      ("name", .str tu.name), ("input", tu.input)]] }

/-- The `tool_result` user message appended on lines 251-266: the text
stored is the serialized tool result, and `is_error` is
`tool_result.get("is_error", False)` when the result is a dictionary and
`False` otherwise. -/
def toolResultMessage (dumps : JValue → String) (tu : ToolUseBlock)
    (tool_result : JValue) : Message :=
  let isErrVal : JValue := match tool_result with
    | .dict fs => jGetD fs "is_error" (.bool false)
    | _ => .bool false
  { role := .user,
    content := .list [.dict [("type", .str "tool_result"),
      ("tool_use_id", .str tu.id),
      ("content", .list [.dict [("type", .str "text"),
        ("text", .str (toolResultText dumps tool_result))]]),
      ("is_error", isErrVal)]] }

/-- The `for tool_use in tool_uses` loop (lines 218-298).  `k` is the
index of the next follow-up call.  Within one iteration: execute the
tool, append the tool-use and tool-result messages, update the file
cache, rebuild `messages`, then the follow-up call; a follow-up
exception appends `"Error in tool response: ..."` and the loop
continues.  For the `edit_and_apply_multiple` tool the retry engine
runs after the follow-up text is accumulated; an exception it raises is
caught by the same handler. -/
def toolStep (env : ChatEnv) (filtered_history : List Message) (k : Nat)
    (tu : ToolUseBlock) (st : TurnState) : TurnState :=
  let tool_result := env.execTool tu.name tu.input
  let st : TurnState := { st with executed := st.executed ++ [(tu.name, tu.input)] }
  let st : TurnState := { st with current_conversation :=
    st.current_conversation ++ [toolUseMessage tu, toolResultMessage env.dumps tu tool_result] }
  -- `self.file_ops.update_file_contents(tool_name, tool_input)` (line 268)
  let st : TurnState := { st with fileOpsContents :=
    (osPathJoin (generationsDir env.cwd) tu.name, tu.input) :: st.fileOpsContents }
  -- `messages = filtered_conversation_history + current_conversation` (line 270)
  let st : TurnState := { st with messages := filtered_history ++ st.current_conversation }
  match env.followUp k with
  | .error e =>
    -- `except Exception as e:` (lines 295-298)
    { st with assistant_response :=
      st.assistant_response ++ "\n\n" ++ ("Error in tool response: " ++ e) }
  | .ok tool_response =>
    let tool_checker_response := concatTexts tool_response.content
    let st : TurnState := { st with assistant_response :=
      st.assistant_response ++ "\n\n" ++ tool_checker_response }
    if tu.name = "edit_and_apply_multiple" then
      match decideRetryOnValue tool_checker_response tool_result with
      | .error e =>
        -- the exception propagates to the handler of lines 295-298
        { st with assistant_response :=
          st.assistant_response ++ "\n\n" ++ ("Error in tool response: " ++ e) }
      | .ok retry_decision =>
        if retry_decision.retry then
          -- lines 287-291: re-invoke the edit tool on the flagged files
          -- (unreachable: `decide_retry` never returns `retry = true`, see
          -- `decide_retry_never_retries` below)
          let (retry_result, _retry_console_output) :=
            env.retryEdit tu.input retry_decision.files_to_retry
          { st with assistant_response :=
            st.assistant_response ++ "\n\nRetry result: " ++ env.dumps retry_result }
        else
          st
    else
      st

/-- See `toolStep`: the loop applies the step to each tool use in
order. -/
def runToolLoop (env : ChatEnv) (filtered_history : List Message) :
    Nat → List ToolUseBlock → TurnState → TurnState
  | _, [], st => st
  | k, tu :: rest, st =>
    runToolLoop env filtered_history (k + 1) rest (toolStep env filtered_history k tu st)

/-- The observable outcome of one `chat_with_claude` turn: the returned
pair, the `Conversation.history` store afterwards, the final value of
the turn-local `messages` list, and the tool executions performed. -/
structure TurnOutcome where
  response : String
  exit_continuation : Bool
  store : List Message
  localMessages : List Message
  executed : List (String × JValue)

/-- `ChatManager.chat_with_claude` for a text turn (`image_path =
None`): append the user message to the store, filter and
alternation-repair the dispatch list, make the main model call, split
the response, run the tool loop, and append the assembled response to
the turn-local `messages` list — the `self.conversation.add_message`
call for the assistant response on line 302 is commented out in the
source, so the store is not extended further. -/
def chatWithClaude (env : ChatEnv) (store0 : List Message)
    (user_input : String) : TurnOutcome :=
  let userMsg : Message := { role := .user, content := .str user_input }
  let current0 : List Message := [userMsg]
  -- `self.conversation.add_message("user", user_input)` (line 182)
  let store := store0 ++ [userMsg]
  let filtered_history := filterHistory store
  -- `messages = self.ensure_alternating_roles(filtered_conversation_history + current_conversation)` (line 187)
  let messages := ensureAlternatingRoles (filtered_history ++ current0)
  match env.mainCall with
  | .error e =>
    -- lines 196-200: the turn aborts with the exception text as response
    { response := "Error communicating with the AI: " ++ e,
      exit_continuation := false, store := store,
      localMessages := messages, executed := [] }
  | .ok response =>
    let assistant_response := concatTexts response.content
    let exit_continuation := anyTextContains env.exitPhrase response.content
    let tool_uses := toolUsesOf response.content
    let st0 : TurnState :=
      { assistant_response := assistant_response, messages := messages,
        current_conversation := current0, fileOpsContents := [], executed := [] }
    let st := runToolLoop env filtered_history 0 tool_uses st0
    -- lines 300-304: `if assistant_response: messages.append(...)`; the
    -- commented-out line 302 would have stored the response in the
    -- Conversation store
    let finalMessages :=
      if st.assistant_response ≠ "" then
        st.messages ++ [{ role := .assistant, content := .str st.assistant_response }]
      else st.messages
    { response := st.assistant_response, exit_continuation := exit_continuation,
      store := store, localMessages := finalMessages, executed := st.executed }

/-! ## Concrete scenarios used to evaluate the claims -/

/-- Two distinct assistant messages (for the alternation-repair
deletion counterexample). -/
def assistantA : Message := { role := .assistant, content := .str "first assistant reply" }

/-- See `assistantA`. -/
def assistantB : Message := { role := .assistant, content := .str "second assistant reply" }

/-- An edit environment in which every file exists and the model call
succeeds. -/
def c1Env : EditEnv :=
  { cwd := "/home/user",
    genEdit := fun _ _ _ _ => .ok "<SEARCH>x</SEARCH>\n<REPLACE>y</REPLACE>",
    applyEdits := fun content _ => content ++ " edited" }

/-- A filesystem holding (under the literal path string handed to
`open`) only the traversal target; the operating system resolves that
string to `/home/user/evil.txt`, outside the sandbox root. -/
def c1Fs : String → Option String := fun p =>
  if p = "/home/user/_generations/../evil.txt" then some "outside file" else none

/-- Initial edit state for the traversal scenario. -/
def c1St : EditState := { fs := c1Fs, file_contents := [], events := [] }

/-- The request of the traversal scenario: a `..` path plus an ordinary
sibling. -/
def c1Files : List EditFile :=
  [{ path := "../evil.txt", instructions := "edit" },
   { path := "ok.txt", instructions := "edit" }]

/-- An edit-result list with one `is_error: true` entry, as the spec's
retry property quantifies over. -/
def c2EditResults : List EditResultDict :=
  [[("path", .str "a.py"), ("status", .str "error"),
    ("message", .str "SEARCH block not found"), ("is_error", .bool true)]]

/-- One of the three context markers, used as the stored tool-result
text. -/
def c3StoredText : String := "File contents updated in system prompt"

/-- A tool-result message exactly as the orchestrator builds it (via
`toolResultMessage`), whose stored text is a context marker. -/
def c3Message : Message :=
  toolResultMessage (fun _ => "") { id := "toolu_01", name := "read_multiple_files", input := .dict [] }
    (.str c3StoredText)

/-- A turn environment whose main model call returns plain text and
requests no tools. -/
def c4Env : ChatEnv :=
  { cwd := "/home/user", exitPhrase := "AUTOMODE_COMPLETE",
    mainCall := .ok { content := [.text "Hello!"] },
    followUp := fun _ => .error "unused",
    execTool := fun _ _ => .dict [],
    dumps := fun _ => "{}",
    retryEdit := fun _ _ => (.dict [], "") }

/-- A turn environment whose main model call raises. -/
def c8ErrEnv : ChatEnv :=
  { cwd := "/home/user", exitPhrase := "AUTOMODE_COMPLETE",
    mainCall := .error "Connection refused",
    followUp := fun _ => .ok { content := [.text "unused"] },
    execTool := fun _ _ => .dict [],
    dumps := fun _ => "{}",
    retryEdit := fun _ _ => (.dict [], "") }

/-- A turn environment with two tool calls whose first follow-up call
raises and whose second succeeds. -/
def c8OkEnv : ChatEnv :=
  { cwd := "/home/user", exitPhrase := "AUTOMODE_COMPLETE",
    mainCall := .ok { content :=
      [.text "Listing then reading.",
       .toolUse "toolu_01" "list_files" (.dict [("path", .str ".")]),
       .toolUse "toolu_02" "read_multiple_files" (.dict [("paths", .list [.str "a.py"])])] },
    followUp := fun k => if k = 0 then .error "Connection reset" else .ok { content := [.text "Files look fine."] },
    execTool := fun _ _ => .dict [("status", .str "success")],
    dumps := fun _ => "{}",
    retryEdit := fun _ _ => (.dict [], "") }

/-- An edit environment in which every edit succeeds (for the
result-shape witness). -/
def c10Env : EditEnv :=
  { cwd := "/home/user",
    genEdit := fun _ _ _ _ => .ok "<SEARCH>x</SEARCH>\n<REPLACE>y</REPLACE>",
    applyEdits := fun content _ => content }

/-- Initial edit state for the result-shape witness. -/
def c10St : EditState :=
  { fs := fun _ => some "print(1)", file_contents := [], events := [] }

/-! # Theorems -/

/-! ## Alternation repair (C5, C6) -/

/-- Unfolding: a message whose role differs from `last` is kept. -/
lemma ensureAlternatingRolesGo_cons_ne (m : Message) (rest : List Message)
    (last : Option Role) (h : some m.role ≠ last) :
    ensureAlternatingRolesGo last (m :: rest) =
      m :: ensureAlternatingRolesGo (some m.role) rest := by
  simp only [ensureAlternatingRolesGo]
  rw [if_pos h]

/-- Unfolding: a repeated user message gets the placeholder inserted. -/
lemma ensureAlternatingRolesGo_cons_user (m : Message) (rest : List Message)
    (last : Option Role) (h : some m.role = last) (hu : m.role = Role.user) :
    ensureAlternatingRolesGo last (m :: rest) =
      continuingPlaceholder :: m :: ensureAlternatingRolesGo (some Role.user) rest := by
  simp only [ensureAlternatingRolesGo]
  rw [if_neg (fun hc => hc h), if_pos hu]

/-- Unfolding: a repeated assistant message is skipped. -/
lemma ensureAlternatingRolesGo_cons_skip (m : Message) (rest : List Message)
    (last : Option Role) (h : some m.role = last) (hu : m.role ≠ Role.user) :
    ensureAlternatingRolesGo last (m :: rest) =
      ensureAlternatingRolesGo last rest := by
  simp only [ensureAlternatingRolesGo]
  rw [if_neg (fun hc => hc h), if_neg hu]

/-- The head of the repaired list never carries the role recorded in
`last`. -/
lemma ensureAlternatingRolesGo_head (l : List Message) :
    ∀ (last : Option Role) (m : Message),
      (ensureAlternatingRolesGo last l).head? = some m → some m.role ≠ last := by
  induction l with
  | nil =>
    intro last m h
    simp [ensureAlternatingRolesGo] at h
  | cons x rest ih =>
    intro last m h
    by_cases hx : some x.role = last
    · by_cases hu : x.role = Role.user
      · rw [ensureAlternatingRolesGo_cons_user x rest last hx hu] at h
        simp only [List.head?_cons, Option.some.injEq] at h
        subst h
        rw [← hx, hu]
        simp [continuingPlaceholder]
      · rw [ensureAlternatingRolesGo_cons_skip x rest last hx hu] at h
        exact ih last m h
    · rw [ensureAlternatingRolesGo_cons_ne x rest last hx] at h
      simp only [List.head?_cons, Option.some.injEq] at h
      subst h
      exact hx

/-- The repaired list strictly alternates roles. -/
lemma ensureAlternatingRolesGo_chain (l : List Message) :
    ∀ last : Option Role,
      List.Chain' (fun a b : Message => a.role ≠ b.role)
        (ensureAlternatingRolesGo last l) := by
  induction l with
  | nil => intro last; simp [ensureAlternatingRolesGo]
  | cons x rest ih =>
    intro last
    by_cases hx : some x.role = last
    · by_cases hu : x.role = Role.user
      · rw [ensureAlternatingRolesGo_cons_user x rest last hx hu]
        rw [List.chain'_cons']
        refine ⟨?_, ?_⟩
        · intro y hy
          simp only [List.head?_cons, Option.mem_def, Option.some.injEq] at hy
          subst hy
          simp [continuingPlaceholder, hu]
        · rw [List.chain'_cons']
          refine ⟨?_, ih (some Role.user)⟩
          intro y hy
          have := ensureAlternatingRolesGo_head rest (some Role.user) y hy
          simp only [ne_eq, Option.some.injEq] at this
          rw [hu]
          exact fun hcontra => this hcontra.symm
      · rw [ensureAlternatingRolesGo_cons_skip x rest last hx hu]
        exact ih last
    · rw [ensureAlternatingRolesGo_cons_ne x rest last hx]
      rw [List.chain'_cons']
      refine ⟨?_, ih (some x.role)⟩
      intro y hy
      have := ensureAlternatingRolesGo_head rest (some x.role) y hy
      simp only [ne_eq, Option.some.injEq] at this
      exact fun hcontra => this hcontra.symm

/-- On an already-alternating list whose head does not repeat `last`,
the repair is the identity. -/
lemma ensureAlternatingRolesGo_of_chain (l : List Message) :
    ∀ last : Option Role,
      List.Chain' (fun a b : Message => a.role ≠ b.role) l →
      (∀ m : Message, l.head? = some m → some m.role ≠ last) →
      ensureAlternatingRolesGo last l = l := by
  induction l with
  | nil => intro last _ _; rfl
  | cons x rest ih =>
    intro last hchain hhead
    have hx : some x.role ≠ last := hhead x rfl
    rw [List.chain'_cons'] at hchain
    rw [ensureAlternatingRolesGo_cons_ne x rest last hx]
    congr 1
    refine ih (some x.role) hchain.2 ?_
    intro m hm
    have := hchain.1 m (by simp [hm])
    simp only [ne_eq, Option.some.injEq]
    exact fun hcontra => this hcontra.symm

/-- C6: for every message list, the output of
`ensure_alternating_roles` strictly alternates between the user and
assistant roles, and running the repair on its own output returns the
output unchanged (idempotence). -/
theorem ensure_alternating_roles_alternates_and_idempotent (messages : List Message) :
    List.Chain' (fun a b : Message => a.role ≠ b.role)
      (ensureAlternatingRoles messages) ∧
    ensureAlternatingRoles (ensureAlternatingRoles messages) =
      ensureAlternatingRoles messages := by
  refine ⟨ensureAlternatingRolesGo_chain messages none, ?_⟩
  exact ensureAlternatingRolesGo_of_chain _ none
    (ensureAlternatingRolesGo_chain messages none)
    (fun m _ => by simp)

/-- The user-role sublist is untouched by the repair. -/
lemma ensureAlternatingRolesGo_filter_user (l : List Message) :
    ∀ last : Option Role,
      (ensureAlternatingRolesGo last l).filter (fun m => m.role == Role.user) =
        l.filter (fun m => m.role == Role.user) := by
  induction l with
  | nil => intro last; rfl
  | cons x rest ih =>
    intro last
    by_cases hx : some x.role = last
    · by_cases hu : x.role = Role.user
      · rw [ensureAlternatingRolesGo_cons_user x rest last hx hu]
        simp [List.filter_cons, continuingPlaceholder, hu, ih]
      · rw [ensureAlternatingRolesGo_cons_skip x rest last hx hu]
        simp [List.filter_cons, hu, ih]
    · rw [ensureAlternatingRolesGo_cons_ne x rest last hx]
      simp [List.filter_cons, ih]

/-- Every output message of the repair is an input message or the
placeholder. -/
lemma ensureAlternatingRolesGo_mem (l : List Message) :
    ∀ (last : Option Role) (m : Message),
      m ∈ ensureAlternatingRolesGo last l → m ∈ l ∨ m = continuingPlaceholder := by
  induction l with
  | nil => intro last m h; simp [ensureAlternatingRolesGo] at h
  | cons x rest ih =>
    intro last m h
    by_cases hx : some x.role = last
    · by_cases hu : x.role = Role.user
      · rw [ensureAlternatingRolesGo_cons_user x rest last hx hu] at h
        rcases List.mem_cons.mp h with h | h
        · exact Or.inr h
        · rcases List.mem_cons.mp h with h | h
          · exact Or.inl (h ▸ List.mem_cons_self x rest)
          · rcases ih (some Role.user) m h with h | h
            · exact Or.inl (List.mem_cons_of_mem x h)
            · exact Or.inr h
      · rw [ensureAlternatingRolesGo_cons_skip x rest last hx hu] at h
        rcases ih last m h with h | h
        · exact Or.inl (List.mem_cons_of_mem x h)
        · exact Or.inr h
    · rw [ensureAlternatingRolesGo_cons_ne x rest last hx] at h
      rcases List.mem_cons.mp h with h | h
      · exact Or.inl (h ▸ List.mem_cons_self x rest)
      · rcases ih (some x.role) m h with h | h
        · exact Or.inl (List.mem_cons_of_mem x h)
        · exact Or.inr h

/-- C5 counterexample: the list of two distinct consecutive assistant
messages is repaired to its first element alone — the second real input
message is deleted, so the output is not a superset of the input. -/
theorem ensure_alternating_roles_deletion_counterexample :
    ensureAlternatingRoles [assistantA, assistantB] = [assistantA] ∧
    assistantB ∈ [assistantA, assistantB] ∧
    assistantB ∉ ensureAlternatingRoles [assistantA, assistantB] := by
  refine ⟨rfl, by simp, ?_⟩
  intro hmem
  rw [show ensureAlternatingRoles [assistantA, assistantB] = [assistantA] from rfl] at hmem
  simp [assistantA, assistantB] at hmem

/-- C5 corrected: the repair preserves every user-role input message in
order (the user-role sublists of input and output coincide) and only
ever adds the synthetic placeholder — but it deletes assistant messages
that immediately repeat an assistant role, so the output is not in
general a superset of the input. -/
theorem ensure_alternating_roles_preserves_users (messages : List Message) :
    (ensureAlternatingRoles messages).filter (fun m => m.role == Role.user) =
      messages.filter (fun m => m.role == Role.user) ∧
    ∀ m ∈ ensureAlternatingRoles messages, m ∈ messages ∨ m = continuingPlaceholder :=
  ⟨ensureAlternatingRolesGo_filter_user messages none,
   fun m hm => ensureAlternatingRolesGo_mem messages none m hm⟩

/-- Closed instance of `ensure_alternating_roles_preserves_users`,
discharging its membership hypothesis at a concrete input. -/
theorem ensure_alternating_roles_preserves_users_witness :
    ((ensureAlternatingRoles [assistantA, assistantB]).filter
        (fun m => m.role == Role.user) =
      [assistantA, assistantB].filter (fun m => m.role == Role.user)) ∧
    (assistantA ∈ [assistantA, assistantB] ∨ assistantA = continuingPlaceholder) :=
  ⟨(ensure_alternating_roles_preserves_users [assistantA, assistantB]).1,
   (ensure_alternating_roles_preserves_users [assistantA, assistantB]).2
     assistantA (List.mem_singleton.mpr rfl)⟩

/-! ## Retry engine (C2) and its dead branch -/

/-- `decide_retry` can only return normally with `retry = false`: the
branch that sets `retry = True` always raises the `NameError` before
returning. -/
lemma decide_retry_never_retries (tool_checker_response : String)
    (edit_results : List EditResultDict) (rd : RetryDecision)
    (h : decide_retry tool_checker_response edit_results = .ok rd) :
    rd.retry = false := by
  unfold decide_retry at h
  split at h
  · cases h
  · cases h
    rfl

/-- C2 (evaluation at the failing input): on an edit-result list with an
`is_error: true` entry the error trigger fires, and `decide_retry`
raises the `NameError` caused by the missing `re` import instead of
returning a decision with `retry = true`. -/
theorem decide_retry_raises_on_error_results :
    errorsPresent c2EditResults = true ∧
    decide_retry "" c2EditResults =
      .error "NameError: name re is not defined" ∧
    decide_retry "The edits failed and we need to retry." c2EditResults =
      .error "NameError: name re is not defined" :=
  ⟨rfl, rfl, rfl⟩

/-! ## History filtering (C3) -/

/-- C3 (evaluation at the failing input): a tool-result message exactly
as the orchestrator builds it, whose stored text is one of the three
context markers, passes through `filter_history` unchanged, because the
marker scan reads the absent `output` key; a hypothetical block that
carried the marker under `output` would be removed.  The second and
third conjuncts check the claim's other two parts: a message whose
content list empties out is omitted, and plain non-list content passes
through. -/
theorem filter_history_keeps_marker_block :
    (contextMarkers.any fun keyword => strContains c3StoredText keyword) = true ∧
    filterHistory [c3Message] = [c3Message] ∧
    filterHistory
      [{ role := .user, content := .list [.dict
          [("type", .str "tool_result"), ("output", .str c3StoredText)]] }] = [] ∧
    filterHistory [{ role := .user, content := .str c3StoredText }] =
      [{ role := .user, content := .str c3StoredText }] :=
  ⟨rfl, rfl, rfl, rfl⟩

/-! ## Sandbox check of the multi-file edit tool (C1) -/

/-- C1 (evaluation at the failing input): the requested path
`../evil.txt` joins to `/home/user/_generations/../evil.txt`, which
resolves outside the sandbox root yet passes the `startswith` check; the
tool reads and writes that file and reports per-file success, and the
sibling file is processed afterwards. -/
theorem edit_traversal_not_rejected :
    resolvesOutside (generationsDir "/home/user")
        (osPathJoin (generationsDir "/home/user") "../evil.txt") = true ∧
    pyStartsWith (osPathJoin (generationsDir "/home/user") "../evil.txt")
        (generationsDir "/home/user") = true ∧
    (editAndApplyMultiple c1Env "ctx" c1St c1Files).1.events =
      [FileEvent.read "/home/user/_generations/../evil.txt",
       FileEvent.write "/home/user/_generations/../evil.txt",
       FileEvent.read "/home/user/_generations/ok.txt"] ∧
    (editAndApplyMultiple c1Env "ctx" c1St c1Files).2 =
      [editOkResult "../evil.txt",
       editErrResult "ok.txt"
         "No such file or directory: /home/user/_generations/ok.txt"] :=
  ⟨rfl, rfl, rfl, rfl⟩

/-! ## Autonomous mode error budget (C7) -/

/-- C7: with `maxIterations = 3` and an orchestrator that raises on
every invocation, the loop makes exactly three orchestrator calls,
terminates with the consecutive-error message, and neither the
max-iterations nor the completed outcome fires (the iteration counter
never advances, so the max-iterations exit is unreachable here). -/
theorem automode_stops_on_error_budget (e exitPhrase : String) :
    handleAutomode (fun _ => Except.error e) exitPhrase 3 10 =
      { automode := false, iteration_count := 0, error_count := 3, calls := 3,
        completedDisplayed := false, maxIterationsDisplayed := false,
        errorBudgetDisplayed := true, outOfFuel := false } :=
  rfl

/-! ## Session reset (C9) -/

/-- C9 (evaluation at the failing input): from any session state,
`reset_conversation` clears the conversation history and the
conversation file cache and then raises `AttributeError`, because
`TokenTracker` defines `reset_token_usage` but no `reset`; the token
ledger, the `FileOperations` file cache and the code-editor memory are
left untouched. -/
theorem reset_conversation_raises (s : SessionState) :
    resetConversation s =
      ({ s with history := [], convFileContents := [] },
       some "AttributeError: TokenTracker object has no attribute reset") :=
  rfl

/-! ## The turn orchestrator (C4, C8) -/

/-- Composing two append-extensions of strings. -/
lemma str_extends_trans {a b c : String} (h₁ : ∃ s, b = a ++ s)
    (h₂ : ∃ t, c = b ++ t) : ∃ u, c = a ++ u := by
  obtain ⟨s, hs⟩ := h₁
  obtain ⟨t, ht⟩ := h₂
  exact ⟨s ++ t, by rw [ht, hs, String.append_assoc]⟩

/-- One tool step only ever appends to the assistant response. -/
lemma toolStep_response_extends (env : ChatEnv) (fh : List Message) (k : Nat)
    (tu : ToolUseBlock) (st : TurnState) :
    ∃ x, (toolStep env fh k tu st).assistant_response =
      st.assistant_response ++ x := by
  unfold toolStep
  cases hf : env.followUp k with
  | error e =>
    exact ⟨"\n\n" ++ ("Error in tool response: " ++ e), String.append_assoc _ _ _⟩
  | ok tool_response =>
    by_cases hn : tu.name = "edit_and_apply_multiple"
    · simp only [if_pos hn]
      cases hd : decideRetryOnValue (concatTexts tool_response.content)
          (env.execTool tu.name tu.input) with
      | error e =>
        refine ⟨("\n\n" ++ concatTexts tool_response.content) ++
          ("\n\n" ++ ("Error in tool response: " ++ e)), ?_⟩
        simp only [String.append_assoc]
      | ok retry_decision =>
        by_cases hr : retry_decision.retry
        · simp only [if_pos hr]
          refine ⟨("\n\n" ++ concatTexts tool_response.content) ++
            ("\n\nRetry result: " ++
              env.dumps (env.retryEdit tu.input retry_decision.files_to_retry).1), ?_⟩
          simp only [String.append_assoc]
        · simp only [if_neg hr]
          exact ⟨"\n\n" ++ concatTexts tool_response.content, String.append_assoc _ _ _⟩
    · simp only [if_neg hn]
      exact ⟨"\n\n" ++ concatTexts tool_response.content, String.append_assoc _ _ _⟩

/-- One tool step logs exactly its own tool execution. -/
lemma toolStep_executed (env : ChatEnv) (fh : List Message) (k : Nat)
    (tu : ToolUseBlock) (st : TurnState) :
    (toolStep env fh k tu st).executed = st.executed ++ [(tu.name, tu.input)] := by
  unfold toolStep
  cases hf : env.followUp k with
  | error e => rfl
  | ok tool_response =>
    by_cases hn : tu.name = "edit_and_apply_multiple"
    · simp only [if_pos hn]
      cases hd : decideRetryOnValue (concatTexts tool_response.content)
          (env.execTool tu.name tu.input) with
      | error e => rfl
      | ok retry_decision =>
        by_cases hr : retry_decision.retry
        · simp only [if_pos hr]
        · simp only [if_neg hr]
    · simp only [if_neg hn]

/-- When the follow-up model call for this step raises, the step appends
exactly the inline error text. -/
lemma toolStep_followup_error (env : ChatEnv) (fh : List Message) (k : Nat)
    (tu : ToolUseBlock) (st : TurnState) (e : String)
    (hf : env.followUp k = .error e) :
    (toolStep env fh k tu st).assistant_response =
      (st.assistant_response ++ "\n\n") ++ ("Error in tool response: " ++ e) := by
  unfold toolStep
  rw [hf]

/-- The loop only ever appends to the assistant response. -/
lemma runToolLoop_response_extends (env : ChatEnv) (fh : List Message) :
    ∀ (tools : List ToolUseBlock) (k : Nat) (st : TurnState),
      ∃ suffix, (runToolLoop env fh k tools st).assistant_response =
        st.assistant_response ++ suffix := by
  intro tools
  induction tools with
  | nil =>
    intro k st
    exact ⟨"", by simp [runToolLoop]⟩
  | cons tu rest ih =>
    intro k st
    exact str_extends_trans (toolStep_response_extends env fh k tu st)
      (ih (k + 1) (toolStep env fh k tu st))

/-- The loop executes every tool use, in order, whatever the follow-up
outcomes are. -/
lemma runToolLoop_executed (env : ChatEnv) (fh : List Message) :
    ∀ (tools : List ToolUseBlock) (k : Nat) (st : TurnState),
      (runToolLoop env fh k tools st).executed =
        st.executed ++ tools.map (fun tu => (tu.name, tu.input)) := by
  intro tools
  induction tools with
  | nil => intro k st; simp [runToolLoop]
  | cons tu rest ih =>
    intro k st
    show (runToolLoop env fh (k + 1) rest (toolStep env fh k tu st)).executed = _
    rw [ih (k + 1) (toolStep env fh k tu st), toolStep_executed]
    simp

/-- A failing follow-up call leaves its inline error text in the final
response, wherever in the tool list it happens. -/
lemma runToolLoop_followup_error (env : ChatEnv) (fh : List Message) :
    ∀ (tools : List ToolUseBlock) (k : Nat) (st : TurnState) (j : Nat) (e : String),
      j < tools.length → env.followUp (k + j) = .error e →
      ∃ pre post, (runToolLoop env fh k tools st).assistant_response =
        (pre ++ ("Error in tool response: " ++ e)) ++ post := by
  intro tools
  induction tools with
  | nil =>
    intro k st j e hj _
    exact absurd hj (by simp)
  | cons tu rest ih =>
    intro k st j e hj hf
    cases j with
    | zero =>
      have hf0 : env.followUp k = .error e := by simpa using hf
      obtain ⟨suffix, hsuffix⟩ :=
        runToolLoop_response_extends env fh rest (k + 1) (toolStep env fh k tu st)
      refine ⟨st.assistant_response ++ "\n\n", suffix, ?_⟩
      show (runToolLoop env fh (k + 1) rest (toolStep env fh k tu st)).assistant_response = _
      rw [hsuffix, toolStep_followup_error env fh k tu st e hf0]
    | succ j' =>
      have hf' : env.followUp ((k + 1) + j') = .error e := by
        rw [show (k + 1) + j' = k + (j' + 1) by omega]
        exact hf
      exact ih (k + 1) (toolStep env fh k tu st) j' e (by simpa using hj) hf'

/-- C4 counterexample: a concrete successful turn whose assembled
response is `"Hello!"` leaves the Conversation store holding the user
message only — the store contains no assistant-role message at all, so
no later dispatch built from the store can include the response; the
response is appended only to the turn-local `messages` list. -/
theorem chat_store_missing_response_counterexample :
    (chatWithClaude c4Env [] "hi").response = "Hello!" ∧
    (chatWithClaude c4Env [] "hi").store =
      [{ role := .user, content := .str "hi" }] ∧
    ((chatWithClaude c4Env [] "hi").store.filter
      (fun m => m.role == Role.assistant)) = [] ∧
    (chatWithClaude c4Env [] "hi").localMessages.getLast? =
      some { role := .assistant, content := .str "Hello!" } :=
  ⟨rfl, rfl, rfl, rfl⟩

/-- C4 corrected: a turn appends exactly the user message to the
Conversation store; the assembled assistant response is never appended
to the store (the `add_message` call for it is commented out in the
source), regardless of how the turn proceeds. -/
theorem chat_appends_only_user_to_store (env : ChatEnv) (store0 : List Message)
    (user_input : String) :
    (chatWithClaude env store0 user_input).store =
      store0 ++ [{ role := .user, content := .str user_input }] := by
  unfold chatWithClaude
  cases env.mainCall <;> rfl

/-- C8: a main-call exception aborts the turn with the exception text as
the response, the completion flag false and no tool executed; after a
successful main call every requested tool is executed in order whatever
the follow-up outcomes are, and each failing follow-up call leaves its
inline error text in the assembled response. -/
theorem chat_failure_semantics (env : ChatEnv) (store0 : List Message)
    (user_input : String) :
    (∀ e, env.mainCall = .error e →
      (chatWithClaude env store0 user_input).response =
          "Error communicating with the AI: " ++ e ∧
        (chatWithClaude env store0 user_input).exit_continuation = false ∧
        (chatWithClaude env store0 user_input).executed = []) ∧
    (∀ r, env.mainCall = .ok r →
      (chatWithClaude env store0 user_input).executed =
          (toolUsesOf r.content).map (fun tu => (tu.name, tu.input)) ∧
        ∀ j e, j < (toolUsesOf r.content).length → env.followUp j = .error e →
          ∃ pre post, (chatWithClaude env store0 user_input).response =
            (pre ++ ("Error in tool response: " ++ e)) ++ post) := by
  constructor
  · intro e he
    unfold chatWithClaude
    rw [he]
    exact ⟨rfl, rfl, rfl⟩
  · intro r hr
    constructor
    · unfold chatWithClaude
      rw [hr]
      simp only
      rw [runToolLoop_executed]
      rfl
    · intro j e hj hf
      unfold chatWithClaude
      rw [hr]
      simp only
      exact runToolLoop_followup_error env _ (toolUsesOf r.content) 0 _ j e hj
        (by simpa using hf)

/-- Closed instance of `chat_failure_semantics`, discharging its
hypotheses at concrete environments: a main-call failure, and a
two-tool turn whose first follow-up call fails. -/
theorem chat_failure_semantics_witness :
    ((chatWithClaude c8ErrEnv [] "hi").response =
        "Error communicating with the AI: Connection refused" ∧
      (chatWithClaude c8ErrEnv [] "hi").exit_continuation = false ∧
      (chatWithClaude c8ErrEnv [] "hi").executed = []) ∧
    (chatWithClaude c8OkEnv [] "hi").executed =
      [("list_files", .dict [("path", .str ".")]),
       ("read_multiple_files", .dict [("paths", .list [.str "a.py"])])] ∧
    ∃ pre post, (chatWithClaude c8OkEnv [] "hi").response =
      (pre ++ ("Error in tool response: " ++ "Connection reset")) ++ post := by
  refine ⟨(chat_failure_semantics c8ErrEnv [] "hi").1 "Connection refused" rfl,
    ?_, ?_⟩
  · exact ((chat_failure_semantics c8OkEnv [] "hi").2 _ rfl).1
  · exact ((chat_failure_semantics c8OkEnv [] "hi").2 _ rfl).2 0 "Connection reset"
      (by decide) rfl

/-! ## Result shape of the multi-file edit tool (C10) -/

/-- A dictionary without the key yields the default. -/
lemma jGetD_of_none {r : List (String × JValue)} {k : String}
    (h : jGet r k = none) (d : JValue) : jGetD r k d = d := by
  unfold jGet at h
  unfold jGetD
  rw [h]
  rfl

/-- Unfolding the per-file loop one step. -/
lemma editAndApplyMultiple_cons (env : EditEnv) (pc : String) (st : EditState)
    (file : EditFile) (rest : List EditFile) :
    editAndApplyMultiple env pc st (file :: rest) =
      ((editAndApplyMultiple env pc (processEditFile env pc st file).1 rest).1,
       (processEditFile env pc st file).2 ::
         (editAndApplyMultiple env pc (processEditFile env pc st file).1 rest).2) :=
  rfl

/-- Every branch of the per-file body produces a result dictionary with
exactly the keys path, status, message — never an `is_error` key. -/
lemma processEditFile_shape (env : EditEnv) (pc : String) (st : EditState)
    (file : EditFile) :
    (processEditFile env pc st file).2.map Prod.fst =
        ["path", "status", "message"] ∧
      jGet (processEditFile env pc st file).2 "is_error" = none := by
  unfold processEditFile
  dsimp only
  split
  · exact ⟨rfl, rfl⟩
  · split
    · exact ⟨rfl, rfl⟩
    · split
      · exact ⟨rfl, rfl⟩
      · exact ⟨rfl, rfl⟩

/-- Every result of a run of the edit tool has the fixed key shape. -/
lemma editAndApplyMultiple_results_shape (env : EditEnv) (pc : String) :
    ∀ (files : List EditFile) (st : EditState),
      ∀ r ∈ (editAndApplyMultiple env pc st files).2,
        r.map Prod.fst = ["path", "status", "message"] ∧
          jGet r "is_error" = none := by
  intro files
  induction files with
  | nil => intro st r hr; simp [editAndApplyMultiple] at hr
  | cons file rest ih =>
    intro st r hr
    rw [editAndApplyMultiple_cons] at hr
    rcases List.mem_cons.mp hr with h | h
    · exact h ▸ processEditFile_shape env pc st file
    · exact ih (processEditFile env pc st file).1 r h

/-- The error trigger of the retry engine never fires on an actual edit
result list. -/
lemma editAndApplyMultiple_no_errors (env : EditEnv) (pc : String) :
    ∀ (files : List EditFile) (st : EditState),
      errorsPresent (editAndApplyMultiple env pc st files).2 = false := by
  intro files
  induction files with
  | nil => intro st; rfl
  | cons file rest ih =>
    intro st
    rw [editAndApplyMultiple_cons]
    unfold errorsPresent
    rw [List.any_cons]
    rw [jGetD_of_none (processEditFile_shape env pc st file).2]
    dsimp only [JValue.truthy]
    rw [Bool.false_or]
    exact ih (processEditFile env pc st file).1

/-- C10: every per-file result of `edit_and_apply_multiple` is a record
with exactly the fields path, status, message and never an `is_error`
field; on such a result list `decide_retry`'s error trigger is always
false, so with commentary carrying no retry phrase the decision is
no-retry. -/
theorem edit_results_have_no_error_field (env : EditEnv) (project_context : String)
    (st : EditState) (files : List EditFile) (commentary : String) :
    (∀ r ∈ (editAndApplyMultiple env project_context st files).2,
      r.map Prod.fst = ["path", "status", "message"] ∧
        jGet r "is_error" = none) ∧
    errorsPresent (editAndApplyMultiple env project_context st files).2 = false ∧
    ((retryPhrases.any fun phrase => strContains (pyLower commentary) phrase) = false →
      decide_retry commentary (editAndApplyMultiple env project_context st files).2 =
        .ok { retry := false, files_to_retry := [] }) := by
  refine ⟨editAndApplyMultiple_results_shape env project_context files st,
    editAndApplyMultiple_no_errors env project_context files st, ?_⟩
  intro hph
  unfold decide_retry
  rw [editAndApplyMultiple_no_errors env project_context files st, hph]
  rfl

/-- Closed instance of `edit_results_have_no_error_field`, discharging
its hypotheses at a concrete run of the edit tool. -/
theorem edit_results_have_no_error_field_witness :
    ((editOkResult "a.py").map Prod.fst = ["path", "status", "message"] ∧
      jGet (editOkResult "a.py") "is_error" = none) ∧
    decide_retry "The edits were applied correctly."
        (editAndApplyMultiple c10Env "ctx" c10St
          [{ path := "a.py", instructions := "fix" }]).2 =
      .ok { retry := false, files_to_retry := [] } := by
  constructor
  · exact (edit_results_have_no_error_field c10Env "ctx" c10St
      [{ path := "a.py", instructions := "fix" }] "x").1 (editOkResult "a.py")
      (List.mem_singleton.mpr rfl)
  · exact (edit_results_have_no_error_field c10Env "ctx" c10St
      [{ path := "a.py", instructions := "fix" }]
      "The edits were applied correctly.").2.2 rfl

end ClaudeEngineer
